import Mathlib

/-!
# stickypg: read-your-writes routing over a primary/standby PostgreSQL cluster

A shallow embedding of `loadbalancer.go`, `replication.go` and `redis.go`.

* A Go `(value, error)` result is a pair whose second component is an
  `Option Error` (`none` is the `nil` error); a `*pgxpool.Pool` result that may
  be `nil` is an `Option Pool`.
* The database cluster, the Redis client and the random source are external
  collaborators: their replies are inputs of the embedded functions.
* `LoadBalancer.Standby` additionally returns the list of calls it made to its
  collaborators (store lookups and standby probes), in order, so that "is not
  consulted" and "is not probed" are statements about that list.
-/

namespace Stickypg

/-! ## Errors -/

/-- Go `error` values that occur in the package: the sentinel `redis.Nil`, an
error made of a message (`errors.New`, or any fault reported by a collaborator),
and `fmt.Errorf(msg + ": %w", err)`. -/
inductive Error where
  | redisNil
  | new (msg : String)
  | wrap (msg : String) (err : Error)
  deriving DecidableEq, Repr

/-- Go `errors.Is` on a non-nil error: `err` or an error it wraps equals `target`. -/
def Error.is : Error → Error → Bool
  | .wrap msg inner, target =>
    if Error.wrap msg inner = target then true else Error.is inner target
  | e, target => decide (e = target)

/-- Go `errors.Is(err, target)` with a non-nil `target`: a nil `err` matches nothing. -/
def errorsIs : Option Error → Error → Bool
  | none, _ => false
  | some e, target => e.is target

/-! ## replication.go -/

/-- A `*pgxpool.Pool`: the handle of one database node. -/
structure Pool where
  id : Nat
  deriving DecidableEq, Repr

/-- The cluster as the package observes it through `dbtx.QueryRow(...).Scan(...)`:
for each node, the outcome of scanning the single row of each of the two queries
(`Except.error` when `Scan` returns an error, a timeout included). A `NULL`
column is `none`. -/
structure DB where
  /-- Row of `select pg_current_wal_lsn()::text`. -/
  currentWalLSN : Pool → Except Error String
  /-- Row of `select pg_last_wal_replay_lsn() >= $1::pg_lsn`, `$1` being the LSN. -/
  replayReached : Pool → String → Except Error (Option Bool)

/-- Go `sql.Null[bool]`. -/
structure NullBool where
  V : Bool
  Valid : Bool
  deriving DecidableEq, Repr

/-- What a successful `Scan` leaves in a `sql.Null[bool]`: the zero value and
`Valid = false` for `NULL`, the value and `Valid = true` otherwise. -/
def NullBool.scan : Option Bool → NullBool
  | none => { V := false, Valid := false }
  | some b => { V := b, Valid := true }

/-- `standbyLSNReached` of replication.go: has the standby replayed up to or
past the target LSN. -/
def standbyLSNReached (db : DB) (dbtx : Pool) (lsn : String) : Bool × Option Error :=
  match db.replayReached dbtx lsn with
  | .error err => (false, some err)
  | .ok row =>
    let lsnReached := NullBool.scan row
    if !lsnReached.Valid then
      (false, some (Error.new "server not in a recovery mode"))
    else
      (lsnReached.V, none)

/-- `getPrimaryLSN` of replication.go: the current WAL write location of the primary. -/
def getPrimaryLSN (db : DB) (dbtx : Pool) : String × Option Error :=
  match db.currentWalLSN dbtx with
  | .error err => ("", some err)
  | .ok lsn => (lsn, none)

/-! ## redis.go -/

/-- The three commands of `*redis.Client` the package uses, over a server state
`ρ`: `Get(key).Result()`, `Set(key, value, expiration).Err()` and
`Del(key).Err()`. -/
structure RedisClient (ρ : Type) where
  Get : ρ → String → String × Option Error
  Set : ρ → String → String → Int → ρ × Option Error
  Del : ρ → String → ρ × Option Error

/-- `RedisStore` of redis.go; `expiry` is a `time.Duration`. -/
structure RedisStore (ρ : Type) where
  rdb : RedisClient ρ
  expiry : Int

/-- `RedisStore.key`: the namespaced Redis key. -/
def RedisStore.key {ρ : Type} (_s : RedisStore ρ) (key : String) : String :=
  "stickypg:lsn:key:" ++ key

/-- `RedisStore.StoreLSN`: saves the given LSN for a specific key. -/
def RedisStore.StoreLSN {ρ : Type} (s : RedisStore ρ) (r : ρ) (key lsn : String) :
    ρ × Option Error :=
  s.rdb.Set r (s.key key) lsn s.expiry

/-- `RedisStore.LSN`: the LSN stored for the key, or an empty string if not found. -/
def RedisStore.LSN {ρ : Type} (s : RedisStore ρ) (r : ρ) (key : String) :
    String × Option Error :=
  let res := s.rdb.Get r (s.key key)
  if errorsIs res.2 Error.redisNil then
    ("", none)
  else
    (res.1, res.2)

/-- `RedisStore.DeleteLSN`: removes the stored LSN for a key. -/
def RedisStore.DeleteLSN {ρ : Type} (s : RedisStore ρ) (r : ρ) (key : String) :
    ρ × Option Error :=
  s.rdb.Del r (s.key key)

/-! ## loadbalancer.go -/

/-- The `Store` interface, over a state `σ` of the backing store. -/
structure Store (σ : Type) where
  LSN : σ → String → String × Option Error
  StoreLSN : σ → String → String → σ × Option Error

/-- `RedisStore` implements `Store`. -/
def RedisStore.toStore {ρ : Type} (s : RedisStore ρ) : Store ρ where
  LSN := s.LSN
  StoreLSN := s.StoreLSN

/-- `LoadBalancer` of loadbalancer.go. -/
structure LoadBalancer (σ : Type) where
  primary : Pool
  standbys : List Pool
  store : Store σ

/-- A call `Standby` makes to a collaborator: `lb.store.LSN(ctx, key)`, or
`standbyLSNReached(ctx, sb, lsn)` with `sb = lb.standbys[idx]`. -/
inductive Event where
  | storeLSN (key : String)
  | probe (idx : Nat) (sb : Pool) (lsn : String)
  deriving DecidableEq, Repr

/-- `rand.IntN(n)` for `n > 0`: a value of `[0, n)`, drawn from the raw random
value `rnd`. Every value of `[0, n)` is the draw of some `rnd`. -/
def randIntN (rnd n : Nat) (h : 0 < n) : Fin n :=
  ⟨rnd % n, Nat.mod_lt rnd h⟩

/-- The result of `Standby`: the Go pair `(*pgxpool.Pool, error)`. -/
abbrev Target := Option Pool × Option Error

/-- The loop `for range len(lb.standbys)` of `Standby`: `k` iterations remain, `i` is
the loop variable `i`, `tr` the calls made so far. -/
def LoadBalancer.standbyLoop {σ : Type} (lb : LoadBalancer σ) (db : DB) (lsn : String) :
    Nat → Fin lb.standbys.length → List Event → Target × List Event
  | 0, _, tr => ((some lb.primary, none), tr)
  | k + 1, i, tr =>
    let sb := lb.standbys.get i
    let i' : Fin lb.standbys.length :=
      ⟨(i.val + 1) % lb.standbys.length, Nat.mod_lt _ i.pos⟩
    let res := standbyLSNReached db sb lsn
    let tr' := tr ++ [Event.probe i.val sb lsn]
    if res.2 ≠ none then
      ((none, res.2), tr')
    else if res.1 then
      ((some sb, none), tr')
    else
      lb.standbyLoop db lsn k i' tr'

/-- `LoadBalancer.Standby` of loadbalancer.go, on store state `st`, cluster `db`
and random draw `rnd`; the second component lists the calls made. -/
def LoadBalancer.Standby {σ : Type} (lb : LoadBalancer σ) (st : σ) (db : DB) (rnd : Nat)
    (key : String) : Target × List Event :=
  if h : lb.standbys.length = 0 then
    ((some lb.primary, none), [])
  else
    let res := lb.store.LSN st key
    let tr := [Event.storeLSN key]
    if res.2 ≠ none then
      ((none, res.2), tr)
    else if res.1 = "" then
      ((some lb.primary, none), tr)
    else
      let i := randIntN rnd lb.standbys.length (Nat.pos_of_ne_zero h)
      lb.standbyLoop db res.1 lb.standbys.length i tr

/-- `LoadBalancer.SaveLSN` of loadbalancer.go: fetches the current WAL LSN of the
primary and stores it in the backing store. -/
def LoadBalancer.SaveLSN {σ : Type} (lb : LoadBalancer σ) (st : σ) (db : DB)
    (key : String) : σ × Option Error :=
  let res := getPrimaryLSN db lb.primary
  match res.2 with
  | some err => (st, some (Error.wrap "retrieve LSN" err))
  | none => lb.store.StoreLSN st key res.1

/-! ## The probing order of the specification -/

/-- Entry `j mod n` of a non-empty standby list, with its index. -/
def standbyAt (standbys : List Pool) (h : 0 < standbys.length) (j : Nat) : Nat × Pool :=
  (j % standbys.length, standbys.get ⟨j % standbys.length, Nat.mod_lt j h⟩)

/-- The cyclic order of the spec from start index `s`: `standbys[s]`,
`standbys[(s+1) mod n]`, ..., `standbys[(s+n-1) mod n]`, each with its index. -/
def cyclicOrder (standbys : List Pool) (s : Nat) : List (Nat × Pool) :=
  List.ofFn fun k : Fin standbys.length => standbyAt standbys k.pos (s + k.val)

/-- The answer of the probe of one entry of the order. -/
def probeOf (db : DB) (lsn : String) (x : Nat × Pool) : Bool × Option Error :=
  standbyLSNReached db x.2 lsn

/-- The call recorded for the probe of one entry of the order. -/
def probeEvent (lsn : String) (x : Nat × Pool) : Event :=
  Event.probe x.1 x.2 lsn

/-- Probing the entries of a list in order, stopping at the first probe that errors or
answers true: the loop of `Standby` read as a recursion over the order it visits. -/
def probeList (primary : Pool) (db : DB) (lsn : String) :
    List (Nat × Pool) → List Event → Target × List Event
  | [], tr => ((some primary, none), tr)
  | x :: rest, tr =>
    let res := standbyLSNReached db x.2 lsn
    let tr' := tr ++ [Event.probe x.1 x.2 lsn]
    if res.2 ≠ none then
      ((none, res.2), tr')
    else if res.1 then
      ((some x.2, none), tr')
    else
      probeList primary db lsn rest tr'

/-! ## Test doubles and scenarios -/

/-- A test double of the Redis server: a reachable key-value map without expiry. `Get` of
a missing key reports `redis.Nil`, `Set` overwrites, `Del` removes. -/
def memRedis : RedisClient (String → Option String) where
  Get := fun r k =>
    match r k with
    | some v => (v, none)
    | none => ("", some Error.redisNil)
  Set := fun r k v _ => (fun k' => if k' = k then some v else r k', none)
  Del := fun r k => (fun k' => if k' = k then none else r k', none)

/-- The Redis test double holding no key. -/
def emptyRedis : String → Option String := fun _ => none

/-- A `RedisStore` over the test double. -/
def testStore : RedisStore (String → Option String) where
  rdb := memRedis
  expiry := 60

/-- The primary of the scenarios. -/
def nodeP : Pool := ⟨0⟩

/-- Standby A of the scenarios. -/
def nodeA : Pool := ⟨1⟩

/-- Standby B of the scenarios. -/
def nodeB : Pool := ⟨2⟩

/-- Scenario router: primary `nodeP`, standbys `[nodeA, nodeB]`, watermarks in the Redis
test double. -/
def routerAB : LoadBalancer (String → Option String) where
  primary := nodeP
  standbys := [nodeA, nodeB]
  store := testStore.toStore

/-- A router with the single standby `nodeA`. -/
def routerA : LoadBalancer (String → Option String) where
  primary := nodeP
  standbys := [nodeA]
  store := testStore.toStore

/-- A router without standbys. -/
def routerNone : LoadBalancer (String → Option String) where
  primary := nodeP
  standbys := []
  store := testStore.toStore

/-- Scenario A cluster: the primary is at position "100"; for the watermark asked,
standby A (at "80") has not caught up and standby B (at "100") has; the primary is not in
recovery, so its row is `NULL`. -/
def clusterA : DB where
  currentWalLSN := fun _ => Except.ok "100"
  replayReached := fun p _ =>
    if p = nodeB then Except.ok (some true)
    else if p = nodeA then Except.ok (some false)
    else Except.ok none

/-- The cluster of scenario A with the probe of standby A failing. -/
def clusterFaultA : DB where
  currentWalLSN := fun _ => Except.ok "100"
  replayReached := fun p _ =>
    if p = nodeB then Except.ok (some true)
    else if p = nodeA then Except.error (Error.new "timeout")
    else Except.ok none

/-- A cluster whose primary reports the position `lsn`. -/
def clusterAt (lsn : String) : DB where
  currentWalLSN := fun _ => Except.ok lsn
  replayReached := fun _ _ => Except.ok none

/-- The Redis test double after `SaveLSN "k"` on the scenario A cluster. -/
def redisAfterWrite : String → Option String :=
  (routerAB.SaveLSN emptyRedis clusterA "k").1

/-- A test double of an unreachable store: every call fails with the given error. -/
def failingStore (e : Error) : Store Unit where
  LSN := fun _ _ => ("", some e)
  StoreLSN := fun s _ _ => (s, some e)

/-- A router with standbys `[nodeA, nodeB]` over the unreachable store. -/
def routerFailing : LoadBalancer Unit where
  primary := nodeP
  standbys := [nodeA, nodeB]
  store := failingStore (Error.new "connection refused")

/-- A router without standbys over the unreachable store. -/
def routerNoneFailing : LoadBalancer Unit where
  primary := nodeP
  standbys := []
  store := failingStore (Error.new "connection refused")

/-! ## The loop of `Standby` as a traversal of the cyclic order -/

theorem standbyAt_congr (standbys : List Pool) (h : 0 < standbys.length) {a b : Nat}
    (hab : a % standbys.length = b % standbys.length) :
    standbyAt standbys h a = standbyAt standbys h b := by
  unfold standbyAt
  simp only [hab]

theorem standbyAt_fin (standbys : List Pool) (i : Fin standbys.length) :
    standbyAt standbys i.pos i.val = (i.val, standbys.get i) := by
  unfold standbyAt
  have h : i.val % standbys.length = i.val := Nat.mod_eq_of_lt i.isLt
  simp only [h]

theorem standbyLoop_eq_probeList {σ : Type} (lb : LoadBalancer σ) (db : DB) (lsn : String)
    (k : Nat) (i : Fin lb.standbys.length) (tr : List Event) :
    lb.standbyLoop db lsn k i tr =
      probeList lb.primary db lsn
        (List.ofFn fun j : Fin k => standbyAt lb.standbys i.pos (i.val + j.val)) tr := by
  induction k generalizing i tr with
  | zero => simp [LoadBalancer.standbyLoop, probeList]
  | succ k ih =>
    rw [List.ofFn_succ]
    simp only [LoadBalancer.standbyLoop, probeList, Fin.val_zero, Nat.add_zero, standbyAt_fin]
    rw [ih]
    have hrest : (fun j : Fin k =>
        standbyAt lb.standbys i.pos ((i.val + 1) % lb.standbys.length + j.val)) =
        (fun j : Fin k => standbyAt lb.standbys i.pos (i.val + (j.succ).val)) := by
      funext j
      apply standbyAt_congr
      rw [Nat.mod_add_mod, Fin.val_succ]
      congr 1
      omega
    simp only [hrest]

theorem probeList_cases (primary : Pool) (db : DB) (lsn : String) (L : List (Nat × Pool))
    (tr : List Event) :
    ((∀ x ∈ L, probeOf db lsn x = (false, none)) ∧
        probeList primary db lsn L tr = ((some primary, none), tr ++ L.map (probeEvent lsn))) ∨
    (∃ pre x post, L = pre ++ x :: post ∧
        (∀ y ∈ pre, probeOf db lsn y = (false, none)) ∧
        (probeList primary db lsn L tr).2 = tr ++ (pre ++ [x]).map (probeEvent lsn) ∧
        (((probeOf db lsn x).2 = none ∧ (probeOf db lsn x).1 = true ∧
            (probeList primary db lsn L tr).1 = (some x.2, none)) ∨
          (∃ e, (probeOf db lsn x).2 = some e ∧
            (probeList primary db lsn L tr).1 = (none, some e)))) := by
  induction L generalizing tr with
  | nil => left; simp [probeList]
  | cons x rest ih =>
    rcases hres : standbyLSNReached db x.2 lsn with ⟨b, oe⟩
    cases oe with
    | some e =>
      right
      refine ⟨[], x, rest, rfl, by simp, ?_, Or.inr ⟨e, ?_, ?_⟩⟩
      · simp [probeList, hres, probeEvent]
      · simp [probeOf, hres]
      · simp [probeList, hres]
    | none =>
      cases b with
      | true =>
        right
        refine ⟨[], x, rest, rfl, by simp, ?_, Or.inl ⟨?_, ?_, ?_⟩⟩
        · simp [probeList, hres, probeEvent]
        · simp [probeOf, hres]
        · simp [probeOf, hres]
        · simp [probeList, hres]
      | false =>
        have hstep : probeList primary db lsn (x :: rest) tr =
            probeList primary db lsn rest (tr ++ [probeEvent lsn x]) := by
          simp [probeList, hres, probeEvent]
        rw [hstep]
        rcases ih (tr ++ [probeEvent lsn x]) with ⟨hall, heq⟩ | ⟨pre, y, post, hL, hpre, htr, hy⟩
        · left
          refine ⟨?_, ?_⟩
          · intro z hz
            rcases List.mem_cons.1 hz with rfl | hz
            · simp [probeOf, hres]
            · exact hall z hz
          · rw [heq]; simp
        · right
          refine ⟨x :: pre, y, post, by simp [hL], ?_, ?_, hy⟩
          · intro z hz
            rcases List.mem_cons.1 hz with rfl | hz
            · simp [probeOf, hres]
            · exact hpre z hz
          · rw [htr]; simp

theorem cyclicOrder_length (standbys : List Pool) (s : Nat) :
    (cyclicOrder standbys s).length = standbys.length := by
  simp [cyclicOrder]

theorem cyclicOrder_eq_rotate (standbys : List Pool) (s : Nat) :
    cyclicOrder standbys s = standbys.enum.rotate s := by
  apply List.ext_getElem
  · simp [cyclicOrder]
  · intro k h1 h2
    rw [List.getElem_rotate]
    simp [cyclicOrder, standbyAt, List.getElem_enum, Nat.add_comm]

theorem mem_cyclicOrder {standbys : List Pool} {s : Nat} {x : Nat × Pool} :
    x ∈ cyclicOrder standbys s ↔ standbys[x.1]? = some x.2 := by
  rw [cyclicOrder_eq_rotate, List.mem_rotate, List.mem_enum_iff_getElem?]

theorem cyclicOrder_nodup (standbys : List Pool) (s : Nat) :
    ((cyclicOrder standbys s).map Prod.fst).Nodup := by
  rw [cyclicOrder_eq_rotate, List.map_rotate, List.enum_map_fst, List.nodup_rotate]
  exact List.nodup_range _

theorem snd_mem_of_mem_cyclicOrder {standbys : List Pool} {s : Nat} {x : Nat × Pool}
    (h : x ∈ cyclicOrder standbys s) : x.2 ∈ standbys :=
  List.getElem?_mem (mem_cyclicOrder.1 h)

theorem exists_mem_cyclicOrder {standbys : List Pool} (s : Nat) {sb : Pool}
    (h : sb ∈ standbys) : ∃ j, (j, sb) ∈ cyclicOrder standbys s := by
  obtain ⟨j, hj⟩ := List.getElem?_of_mem h
  exact ⟨j, mem_cyclicOrder.2 hj⟩

theorem Standby_eq_probeList {σ : Type} (lb : LoadBalancer σ) (st : σ) (db : DB) (rnd : Nat)
    (key w : String) (hne : lb.standbys ≠ []) (hstore : lb.store.LSN st key = (w, none))
    (hw : w ≠ "") :
    lb.Standby st db rnd key =
      probeList lb.primary db w (cyclicOrder lb.standbys (rnd % lb.standbys.length))
        [Event.storeLSN key] := by
  have hlen : lb.standbys.length ≠ 0 := by
    intro h; exact hne (List.length_eq_zero.1 h)
  unfold LoadBalancer.Standby
  simp only [hlen, hstore, hw]
  simp only [dite_false, ne_eq, not_true_eq_false, ite_false]
  rw [standbyLoop_eq_probeList]
  rfl

theorem Standby_cases {σ : Type} (lb : LoadBalancer σ) (st : σ) (db : DB) (rnd : Nat)
    (key w : String) (hne : lb.standbys ≠ [])
    (hstore : lb.store.LSN st key = (w, none)) (hw : w ≠ "") :
    ((∀ sb ∈ lb.standbys, standbyLSNReached db sb w = (false, none)) ∧
        (lb.Standby st db rnd key).1 = (some lb.primary, none)) ∨
      (∃ p ∈ lb.standbys, standbyLSNReached db p w = (true, none) ∧
        (lb.Standby st db rnd key).1 = (some p, none)) ∨
      (∃ idx sb e, sb ∈ lb.standbys ∧ Event.probe idx sb w ∈ (lb.Standby st db rnd key).2 ∧
        (standbyLSNReached db sb w).2 = some e ∧
        (lb.Standby st db rnd key).1 = (none, some e)) := by
  rw [Standby_eq_probeList lb st db rnd key w hne hstore hw]
  rcases probeList_cases lb.primary db w (cyclicOrder lb.standbys (rnd % lb.standbys.length))
      [Event.storeLSN key] with
    ⟨hall, heq⟩ | ⟨pre, x, post, hL, _, htr, ⟨hx2, hx1, hres⟩ | ⟨e, hx2, hres⟩⟩
  · left
    refine ⟨?_, by rw [heq]⟩
    intro sb hsb
    obtain ⟨j, hj⟩ := exists_mem_cyclicOrder (rnd % lb.standbys.length) hsb
    exact hall (j, sb) hj
  · right; left
    have hx : x ∈ cyclicOrder lb.standbys (rnd % lb.standbys.length) := by
      rw [hL]; simp
    exact ⟨x.2, snd_mem_of_mem_cyclicOrder hx, Prod.ext hx1 hx2, hres⟩
  · right; right
    have hx : x ∈ cyclicOrder lb.standbys (rnd % lb.standbys.length) := by
      rw [hL]; simp
    refine ⟨x.1, x.2, e, snd_mem_of_mem_cyclicOrder hx, ?_, hx2, hres⟩
    rw [htr]
    simp [probeEvent]

theorem Standby_probe_mem {σ : Type} (lb : LoadBalancer σ) (st : σ) (db : DB) (rnd : Nat)
    (key w : String) (hne : lb.standbys ≠ [])
    (hstore : lb.store.LSN st key = (w, none)) (hw : w ≠ "") (idx : Nat) (sb : Pool)
    (lsn : String) (hmem : Event.probe idx sb lsn ∈ (lb.Standby st db rnd key).2) :
    lb.standbys[idx]? = some sb ∧ lsn = w := by
  rw [Standby_eq_probeList lb st db rnd key w hne hstore hw] at hmem
  have hsub : ∃ y ∈ cyclicOrder lb.standbys (rnd % lb.standbys.length),
      y.1 = idx ∧ y.2 = sb ∧ w = lsn := by
    rcases probeList_cases lb.primary db w
        (cyclicOrder lb.standbys (rnd % lb.standbys.length)) [Event.storeLSN key] with
      ⟨_, heq⟩ | ⟨pre, x, post, hL, _, htr, _⟩
    · rw [heq] at hmem
      simp only [List.singleton_append, List.mem_cons, List.mem_map, probeEvent,
        Event.probe.injEq] at hmem
      rcases hmem with h | h
      · cases h
      · exact h
    · rw [htr] at hmem
      simp only [List.singleton_append, List.mem_cons, List.mem_map, probeEvent,
        Event.probe.injEq] at hmem
      rcases hmem with h | ⟨y, hy, h⟩
      · cases h
      · refine ⟨y, ?_, h⟩
        rw [hL]
        rcases List.mem_append.1 hy with hy | hy
        · exact List.mem_append_left _ hy
        · rw [List.mem_singleton] at hy
          rw [hy]
          simp
  obtain ⟨y, hy, rfl, rfl, rfl⟩ := hsub
  exact ⟨mem_cyclicOrder.1 hy, rfl⟩

theorem cyclicOrder_getElem? (standbys : List Pool) (s k : Nat) (hk : k < standbys.length) :
    ∃ sb, standbys[(s + k) % standbys.length]? = some sb ∧
      (cyclicOrder standbys s)[k]? = some ((s + k) % standbys.length, sb) := by
  have hpos : 0 < standbys.length := Nat.lt_of_le_of_lt (Nat.zero_le _) hk
  have hlt : (s + k) % standbys.length < standbys.length := Nat.mod_lt _ hpos
  refine ⟨standbys.get ⟨(s + k) % standbys.length, hlt⟩, ?_, ?_⟩
  · simp [List.getElem?_eq_getElem hlt]
  · have hk' : k < (cyclicOrder standbys s).length := by
      rw [cyclicOrder_length]; exact hk
    rw [List.getElem?_eq_getElem hk']
    simp [cyclicOrder, standbyAt]

theorem RedisStore.key_injective {ρ : Type} (s : RedisStore ρ) {a b : String}
    (h : s.key a = s.key b) : a = b := by
  unfold RedisStore.key at h
  have h' := congrArg String.data h
  simp only [String.data_append, List.append_cancel_left_eq] at h'
  exact String.ext h'

/-! ## The claims -/

/-- Claim C1. `LoadBalancer.Standby` on a non-empty standby list, a key whose stored LSN `w`
is non-empty and any random draw, when no probe that it makes returns an error (by
`Standby_probe_mem` every probe made is a probe of a configured standby for `w`, so this
holds whenever no probe of a standby errors): a handle is returned without error; a
returned standby is one whose probe `standbyLSNReached(w)` answered true; if the probe of
at least one standby answers true, the result is a standby whose probe answered true and
not the primary; and the result is the primary exactly when the probe of every standby
answered false. The primary handle is not one of the standby handles, as in every router
built by `NewLoadBalancer`. -/
theorem standby_returns_caught_up_standby_or_primary {σ : Type} (lb : LoadBalancer σ) (st : σ)
    (db : DB) (rnd : Nat) (key w : String) (hne : lb.standbys ≠ [])
    (hprim : lb.primary ∉ lb.standbys) (hstore : lb.store.LSN st key = (w, none))
    (hw : w ≠ "")
    (hnoerr : ∀ idx sb lsn, Event.probe idx sb lsn ∈ (lb.Standby st db rnd key).2 →
      (standbyLSNReached db sb lsn).2 = none) :
    (∃ p, (lb.Standby st db rnd key).1 = (some p, none)) ∧
    (∀ p ∈ lb.standbys, (lb.Standby st db rnd key).1 = (some p, none) →
        standbyLSNReached db p w = (true, none)) ∧
    ((∃ sb ∈ lb.standbys, (standbyLSNReached db sb w).1 = true) →
        ∃ p ∈ lb.standbys, (lb.Standby st db rnd key).1 = (some p, none) ∧
          standbyLSNReached db p w = (true, none) ∧ p ≠ lb.primary) ∧
    ((lb.Standby st db rnd key).1 = (some lb.primary, none) ↔
        ∀ sb ∈ lb.standbys, standbyLSNReached db sb w = (false, none)) := by
  rcases Standby_cases lb st db rnd key w hne hstore hw with
    ⟨hall, hres⟩ | ⟨p, hp, htrue, hres⟩ | ⟨idx, sb, e, _, hmem, herr, _⟩
  · refine ⟨⟨lb.primary, hres⟩, ?_, ?_, ?_⟩
    · intro p hp hp'
      rw [hres] at hp'
      simp only [Prod.mk.injEq, Option.some.injEq, and_true] at hp'
      exact absurd (hp' ▸ hp) hprim
    · rintro ⟨sb, hsb, h1⟩
      rw [hall sb hsb] at h1
      cases h1
    · exact ⟨fun _ => hall, fun _ => hres⟩
  · have hpp : p ≠ lb.primary := fun h => hprim (h ▸ hp)
    refine ⟨⟨p, hres⟩, ?_, ?_, ?_⟩
    · intro q _ hq
      rw [hres] at hq
      simp only [Prod.mk.injEq, Option.some.injEq, and_true] at hq
      exact hq ▸ htrue
    · intro _
      exact ⟨p, hp, hres, htrue, hpp⟩
    · constructor
      · intro h
        rw [hres] at h
        simp only [Prod.mk.injEq, Option.some.injEq, and_true] at h
        exact absurd h hpp
      · intro h
        have := h p hp
        rw [htrue] at this
        simp at this
  · have := hnoerr idx sb w hmem
    rw [this] at herr
    cases herr

theorem standby_returns_caught_up_standby_or_primary_witness :
    routerAB.store.LSN redisAfterWrite "k" = ("100", none) ∧
    standbyLSNReached clusterA nodeA "100" = (false, none) ∧
    standbyLSNReached clusterA nodeB "100" = (true, none) ∧
    (routerAB.Standby redisAfterWrite clusterA 0 "k").1 = (some nodeB, none) ∧
    (routerAB.Standby redisAfterWrite clusterA 1 "k").1 = (some nodeB, none) := by
  have hgood : ∀ rnd, (∀ idx sb lsn,
      Event.probe idx sb lsn ∈ (routerAB.Standby redisAfterWrite clusterA rnd "k").2 →
        (standbyLSNReached clusterA sb lsn).2 = none) →
      (routerAB.Standby redisAfterWrite clusterA rnd "k").1 = (some nodeB, none) := by
    intro rnd hno
    obtain ⟨p, hp, hres, htrue, _⟩ :=
      (standby_returns_caught_up_standby_or_primary routerAB redisAfterWrite clusterA rnd
        "k" "100" (by decide) (by decide) (by decide) (by decide) hno).2.2.1
        ⟨nodeB, by decide, by decide⟩
    have hp' : p = nodeA ∨ p = nodeB := by
      simpa [routerAB] using hp
    rcases hp' with rfl | rfl
    · exact absurd htrue (by decide)
    · exact hres
  refine ⟨by decide, by decide, by decide, hgood 0 ?_, hgood 1 ?_⟩
  · intro idx sb lsn hmem
    have htr : (routerAB.Standby redisAfterWrite clusterA 0 "k").2 =
        [Event.storeLSN "k", Event.probe 0 nodeA "100", Event.probe 1 nodeB "100"] := by
      decide
    rw [htr] at hmem
    simp only [List.mem_cons, Event.probe.injEq, List.mem_singleton] at hmem
    rcases hmem with h | ⟨_, rfl, rfl⟩ | ⟨_, rfl, rfl⟩ | h
    · cases h
    · decide
    · decide
    · cases h
  · intro idx sb lsn hmem
    have htr : (routerAB.Standby redisAfterWrite clusterA 1 "k").2 =
        [Event.storeLSN "k", Event.probe 1 nodeB "100"] := by
      decide
    rw [htr] at hmem
    simp only [List.mem_cons, Event.probe.injEq, List.mem_singleton] at hmem
    rcases hmem with h | ⟨_, rfl, rfl⟩ | h
    · cases h
    · decide
    · cases h

/-- Claim C2. `LoadBalancer.Standby` on a non-empty standby list, a non-empty stored LSN `w`
and any random draw: if a probe that is made returns an error `e`, the result is `(nil, e)`,
the same error and no handle, so neither the primary nor a standby; in particular with
exactly one standby, whose probe errors, `Standby` returns that error. -/
theorem standby_propagates_probe_error {σ : Type} (lb : LoadBalancer σ) (st : σ) (db : DB)
    (rnd : Nat) (key w : String) (hne : lb.standbys ≠ [])
    (hstore : lb.store.LSN st key = (w, none)) (hw : w ≠ "") :
    (∀ idx sb lsn e, Event.probe idx sb lsn ∈ (lb.Standby st db rnd key).2 →
        (standbyLSNReached db sb lsn).2 = some e →
        (lb.Standby st db rnd key).1 = (none, some e)) ∧
    (∀ sb e, lb.standbys = [sb] → (standbyLSNReached db sb w).2 = some e →
        (lb.Standby st db rnd key).1 = (none, some e)) := by
  have hmain : ∀ idx sb lsn e, Event.probe idx sb lsn ∈ (lb.Standby st db rnd key).2 →
      (standbyLSNReached db sb lsn).2 = some e →
      (lb.Standby st db rnd key).1 = (none, some e) := by
    intro idx sb lsn e hmem herr
    rw [Standby_eq_probeList lb st db rnd key w hne hstore hw] at hmem ⊢
    rcases probeList_cases lb.primary db w
        (cyclicOrder lb.standbys (rnd % lb.standbys.length)) [Event.storeLSN key] with
      ⟨hall, heq⟩ | ⟨pre, x, post, _, hpre, htr, hx⟩
    · rw [heq] at hmem
      simp only [List.singleton_append, List.mem_cons, List.mem_map, probeEvent,
        Event.probe.injEq, false_or] at hmem
      rcases hmem with h | ⟨y, hy, _, rfl, rfl⟩
      · cases h
      have := hall y hy
      rw [probeOf] at this
      rw [this] at herr
      cases herr
    · rw [htr] at hmem
      simp only [List.singleton_append, List.mem_cons, List.mem_map, probeEvent,
        Event.probe.injEq, false_or, List.mem_append, List.mem_singleton] at hmem
      rcases hmem with h | ⟨y, hy, _, rfl, rfl⟩
      · cases h
      rcases hy with hy | rfl | hnil
      · have := hpre y hy
        rw [probeOf] at this
        rw [this] at herr
        cases herr
      · rcases hx with ⟨h2, _, _⟩ | ⟨e', h2, hres⟩
        · rw [probeOf] at h2
          rw [h2] at herr
          cases herr
        · rw [probeOf] at h2
          rw [h2] at herr
          cases herr
          exact hres
      · exact absurd hnil (List.not_mem_nil _)
  refine ⟨hmain, ?_⟩
  intro sb e hone herr
  apply hmain 0 sb w e _ herr
  have hstep : lb.Standby st db rnd key =
      ((none, some e), [Event.storeLSN key, Event.probe 0 sb w]) := by
    rw [Standby_eq_probeList lb st db rnd key w hne hstore hw]
    simp [hone, cyclicOrder, standbyAt, probeList, herr, Nat.mod_one]
  rw [hstep]
  simp

theorem standby_propagates_probe_error_witness :
    routerA.standbys = [nodeA] ∧
    (standbyLSNReached clusterFaultA nodeA "100").2 = some (Error.new "timeout") ∧
    (routerA.Standby redisAfterWrite clusterFaultA 0 "k").1 =
      (none, some (Error.new "timeout")) ∧
    (routerA.Standby redisAfterWrite clusterFaultA 7 "k").1 =
      (none, some (Error.new "timeout")) :=
  ⟨rfl, by decide,
    (standby_propagates_probe_error routerA redisAfterWrite clusterFaultA 0 "k" "100"
      (by decide) (by decide) (by decide)).2 nodeA (Error.new "timeout") rfl (by decide),
    (standby_propagates_probe_error routerA redisAfterWrite clusterFaultA 7 "k" "100"
      (by decide) (by decide) (by decide)).2 nodeA (Error.new "timeout") rfl (by decide)⟩

/-- Claim C3. When the store lookup for the key succeeds and reports no recorded LSN (the
empty string, no error), `LoadBalancer.Standby` returns the primary with no error, for every
standby list and every random draw, and probes no standby. -/
theorem standby_no_recorded_lsn_returns_primary {σ : Type} (lb : LoadBalancer σ) (st : σ)
    (db : DB) (rnd : Nat) (key : String) (hstore : lb.store.LSN st key = ("", none)) :
    (lb.Standby st db rnd key).1 = (some lb.primary, none) ∧
    ∀ idx sb lsn, Event.probe idx sb lsn ∉ (lb.Standby st db rnd key).2 := by
  unfold LoadBalancer.Standby
  by_cases h : lb.standbys.length = 0
  · simp [h]
  · simp [h, hstore]

theorem standby_no_recorded_lsn_returns_primary_witness :
    routerAB.store.LSN emptyRedis "k" = ("", none) ∧
    (routerAB.Standby emptyRedis clusterA 0 "k").1 = (some nodeP, none) ∧
    (routerAB.Standby emptyRedis clusterA 1 "k").1 = (some nodeP, none) :=
  ⟨by decide,
    (standby_no_recorded_lsn_returns_primary routerAB emptyRedis clusterA 0 "k"
      (by decide)).1,
    (standby_no_recorded_lsn_returns_primary routerAB emptyRedis clusterA 1 "k"
      (by decide)).1⟩

/-- Claim C4. With zero standbys `LoadBalancer.Standby` returns the primary with no error, for
every key and every store and store state (holding an LSN for the key, holding none, or
failing on lookup); the list of calls is empty: the store is not consulted and no probe is
made. -/
theorem standby_zero_standbys_returns_primary {σ : Type} (lb : LoadBalancer σ) (st : σ)
    (db : DB) (rnd : Nat) (key : String) (hzero : lb.standbys = []) :
    lb.Standby st db rnd key = ((some lb.primary, none), []) := by
  unfold LoadBalancer.Standby
  simp [hzero]

theorem standby_zero_standbys_returns_primary_witness :
    routerNone.Standby redisAfterWrite clusterA 0 "k" = ((some nodeP, none), []) ∧
    routerNone.Standby emptyRedis clusterA 0 "k" = ((some nodeP, none), []) ∧
    routerNoneFailing.Standby () clusterA 0 "k" = ((some nodeP, none), []) :=
  ⟨standby_zero_standbys_returns_primary routerNone redisAfterWrite clusterA 0 "k" rfl,
    standby_zero_standbys_returns_primary routerNone emptyRedis clusterA 0 "k" rfl,
    standby_zero_standbys_returns_primary routerNoneFailing () clusterA 0 "k" rfl⟩

/-- Claim C5. With a non-empty standby list, if `Store.LSN` returns an error `e` for the key,
`LoadBalancer.Standby` returns `(nil, e)`: the same error and no handle, not the primary;
the only call made is the store lookup, so no standby is probed. -/
theorem standby_propagates_store_error {σ : Type} (lb : LoadBalancer σ) (st : σ) (db : DB)
    (rnd : Nat) (key v : String) (e : Error) (hne : lb.standbys ≠ [])
    (hstore : lb.store.LSN st key = (v, some e)) :
    lb.Standby st db rnd key = ((none, some e), [Event.storeLSN key]) := by
  have hlen : lb.standbys.length ≠ 0 := by
    intro h; exact hne (List.length_eq_zero.1 h)
  unfold LoadBalancer.Standby
  simp [hlen, hstore]

theorem standby_propagates_store_error_witness :
    routerFailing.Standby () clusterA 0 "k" =
      ((none, some (Error.new "connection refused")), [Event.storeLSN "k"]) :=
  standby_propagates_store_error routerFailing () clusterA 0 "k" ""
    (Error.new "connection refused") (by decide) rfl

/-- Claim C6. `LoadBalancer.SaveLSN` over a `RedisStore` issues `Set` of the namespaced key
with exactly the position the primary reported. On a Redis whose successful `Set` makes
`Get` of that key return the value set and leaves `Get` of every other key as it was, two
sequential successful `SaveLSN(key)` calls, the primary reporting `p1` then `p2` (whatever
their order relation), leave `Store.LSN(key)` returning `p2`, and `Store.LSN` of every other
key as before the two calls. -/
theorem saveLSN_twice_keeps_later_position {ρ : Type} (s : RedisStore ρ) (primary : Pool)
    (standbys : List Pool) (r0 r1 r2 : ρ) (db1 db2 : DB) (key p1 p2 : String)
    (hSetGet : ∀ r k v ttl r', s.rdb.Set r k v ttl = (r', none) → s.rdb.Get r' k = (v, none))
    (hSetOther : ∀ r k v ttl r' k', s.rdb.Set r k v ttl = (r', none) → k' ≠ k →
      s.rdb.Get r' k' = s.rdb.Get r k')
    (hp1 : db1.currentWalLSN primary = Except.ok p1)
    (hp2 : db2.currentWalLSN primary = Except.ok p2)
    (h1 : (LoadBalancer.mk primary standbys s.toStore).SaveLSN r0 db1 key = (r1, none))
    (h2 : (LoadBalancer.mk primary standbys s.toStore).SaveLSN r1 db2 key = (r2, none)) :
    (LoadBalancer.mk primary standbys s.toStore).SaveLSN r0 db1 key =
        s.rdb.Set r0 ("stickypg:lsn:key:" ++ key) p1 s.expiry ∧
    (LoadBalancer.mk primary standbys s.toStore).SaveLSN r1 db2 key =
        s.rdb.Set r1 ("stickypg:lsn:key:" ++ key) p2 s.expiry ∧
    s.toStore.LSN r2 key = (p2, none) ∧
    ∀ k', k' ≠ key → s.toStore.LSN r2 k' = s.toStore.LSN r0 k' := by
  have e1 : (LoadBalancer.mk primary standbys s.toStore).SaveLSN r0 db1 key =
      s.rdb.Set r0 ("stickypg:lsn:key:" ++ key) p1 s.expiry := by
    simp [LoadBalancer.SaveLSN, getPrimaryLSN, hp1, RedisStore.toStore, RedisStore.StoreLSN,
      RedisStore.key]
  have e2 : (LoadBalancer.mk primary standbys s.toStore).SaveLSN r1 db2 key =
      s.rdb.Set r1 ("stickypg:lsn:key:" ++ key) p2 s.expiry := by
    simp [LoadBalancer.SaveLSN, getPrimaryLSN, hp2, RedisStore.toStore, RedisStore.StoreLSN,
      RedisStore.key]
  refine ⟨e1, e2, ?_, ?_⟩
  · rw [e2] at h2
    have hget := hSetGet _ _ _ _ _ h2
    simp [RedisStore.toStore, RedisStore.LSN, RedisStore.key, hget, errorsIs]
  · intro k' hk'
    rw [e1] at h1
    rw [e2] at h2
    have hkey : "stickypg:lsn:key:" ++ k' ≠ "stickypg:lsn:key:" ++ key := by
      intro h
      exact hk' (s.key_injective h)
    have g2 := hSetOther _ _ _ _ _ _ h2 hkey
    have g1 := hSetOther _ _ _ _ _ _ h1 hkey
    simp [RedisStore.toStore, RedisStore.LSN, RedisStore.key, g2, g1]

theorem saveLSN_twice_keeps_later_position_witness :
    routerAB.SaveLSN emptyRedis (clusterAt "0/20") "k" =
        (memRedis.Set emptyRedis "stickypg:lsn:key:k" "0/20" 60) ∧
    routerAB.store.LSN
        (routerAB.SaveLSN (routerAB.SaveLSN emptyRedis (clusterAt "0/20") "k").1
          (clusterAt "0/10") "k").1 "k" = ("0/10", none) ∧
    routerAB.store.LSN
        (routerAB.SaveLSN (routerAB.SaveLSN emptyRedis (clusterAt "0/20") "k").1
          (clusterAt "0/10") "k").1 "j" = ("", none) := by
  have h := saveLSN_twice_keeps_later_position testStore nodeP [nodeA, nodeB] emptyRedis
    (routerAB.SaveLSN emptyRedis (clusterAt "0/20") "k").1
    (routerAB.SaveLSN (routerAB.SaveLSN emptyRedis (clusterAt "0/20") "k").1
      (clusterAt "0/10") "k").1
    (clusterAt "0/20") (clusterAt "0/10") "k" "0/20" "0/10"
    (by intro r k v ttl r' h
        simp only [testStore, memRedis, Prod.mk.injEq, and_true] at h
        subst h
        simp [testStore, memRedis])
    (by intro r k v ttl r' k' h hk
        simp only [testStore, memRedis, Prod.mk.injEq, and_true] at h
        subst h
        simp [testStore, memRedis, hk])
    rfl rfl rfl rfl
  refine ⟨h.1, h.2.2.1, ?_⟩
  rw [show routerAB.store = testStore.toStore from rfl, h.2.2.2 "j" (by decide)]
  decide

/-- Claim C7. `standbyLSNReached`, for every node and LSN: when the row scans successfully the
result carries an error exactly when the scanned value is `NULL`, and that error is
"server not in a recovery mode"; a scanned non-`NULL` boolean `b` gives `(b, nil)`, so a
lagging standby gives plain `false`; when the scan fails with `err` the result is
`(false, err)`. -/
theorem standbyLSNReached_null_is_error_lag_is_false (db : DB) (sb : Pool) (lsn : String) :
    (∀ row, db.replayReached sb lsn = Except.ok row →
        ((standbyLSNReached db sb lsn).2 ≠ none ↔ row = none) ∧
        (row = none → standbyLSNReached db sb lsn =
          (false, some (Error.new "server not in a recovery mode"))) ∧
        (∀ b, row = some b → standbyLSNReached db sb lsn = (b, none))) ∧
    (∀ err, db.replayReached sb lsn = Except.error err →
        standbyLSNReached db sb lsn = (false, some err)) := by
  constructor
  · intro row hrow
    cases row with
    | none => simp [standbyLSNReached, hrow, NullBool.scan]
    | some b => simp [standbyLSNReached, hrow, NullBool.scan]
  · intro err herr
    simp [standbyLSNReached, herr]

theorem standbyLSNReached_null_is_error_lag_is_false_witness :
    standbyLSNReached clusterA nodeA "100" = (false, none) ∧
    standbyLSNReached clusterA nodeB "100" = (true, none) ∧
    standbyLSNReached clusterA nodeP "100" =
      (false, some (Error.new "server not in a recovery mode")) ∧
    standbyLSNReached clusterFaultA nodeA "100" = (false, some (Error.new "timeout")) :=
  ⟨((standbyLSNReached_null_is_error_lag_is_false clusterA nodeA "100").1
      (some false) rfl).2.2 false rfl,
    ((standbyLSNReached_null_is_error_lag_is_false clusterA nodeB "100").1
      (some true) rfl).2.2 true rfl,
    ((standbyLSNReached_null_is_error_lag_is_false clusterA nodeP "100").1 none rfl).2.1 rfl,
    (standbyLSNReached_null_is_error_lag_is_false clusterFaultA nodeA "100").2
      (Error.new "timeout") rfl⟩

/-- Claim C8, counterexample. After `StoreLSN("k", "")` on the Redis test double, `GET` of the
namespaced key succeeds with the empty value (it does not report `redis.Nil`), and
`RedisStore.LSN("k")` returns the empty string with no error: "empty string with no error
exactly when `GET` reports `redis.Nil`" fails. -/
theorem redisStore_LSN_empty_value_not_redisNil :
    testStore.rdb.Get (testStore.StoreLSN emptyRedis "k" "").1 (testStore.key "k") = ("", none) ∧
    ¬ (testStore.LSN (testStore.StoreLSN emptyRedis "k" "").1 "k" = ("", none) ↔
        errorsIs (testStore.rdb.Get (testStore.StoreLSN emptyRedis "k" "").1
          (testStore.key "k")).2 Error.redisNil = true) := by
  decide

/-- Claim C8, amended. `RedisStore.LSN` returns the empty string with no error exactly when
`GET` of the namespaced key reports `redis.Nil` or succeeds with an empty value; when `GET`
succeeds it returns the stored value with no error; every other `GET` failure is returned
as that error, with the string `GET` gave. The key looked up is "stickypg:lsn:key:"
followed by the key of the caller, the same key `StoreLSN` writes and `DeleteLSN`
removes. -/
theorem redisStore_LSN_absent_or_empty {ρ : Type} (s : RedisStore ρ) (r : ρ) (key : String) :
    (s.LSN r key = ("", none) ↔
        (errorsIs (s.rdb.Get r ("stickypg:lsn:key:" ++ key)).2 Error.redisNil = true ∨
          s.rdb.Get r ("stickypg:lsn:key:" ++ key) = ("", none))) ∧
    (∀ v, s.rdb.Get r ("stickypg:lsn:key:" ++ key) = (v, none) → s.LSN r key = (v, none)) ∧
    (∀ v e, s.rdb.Get r ("stickypg:lsn:key:" ++ key) = (v, some e) →
        errorsIs (some e) Error.redisNil = false → s.LSN r key = (v, some e)) ∧
    (∀ lsn, s.StoreLSN r key lsn = s.rdb.Set r ("stickypg:lsn:key:" ++ key) lsn s.expiry) ∧
    s.DeleteLSN r key = s.rdb.Del r ("stickypg:lsn:key:" ++ key) := by
  refine ⟨?_, ?_, ?_, fun _ => rfl, rfl⟩
  · unfold RedisStore.LSN RedisStore.key
    by_cases h : errorsIs (s.rdb.Get r ("stickypg:lsn:key:" ++ key)).2 Error.redisNil = true
    · simp [h]
    · simp only [h, Bool.false_eq_true, if_false, false_or]
  · intro v hv
    simp [RedisStore.LSN, RedisStore.key, hv, errorsIs]
  · intro v e hv he
    simp [RedisStore.LSN, RedisStore.key, hv, he]

theorem redisStore_LSN_absent_or_empty_witness :
    testStore.LSN emptyRedis "k" = ("", none) ∧
    testStore.LSN redisAfterWrite "k" = ("100", none) ∧
    testStore.LSN (testStore.StoreLSN emptyRedis "k" "").1 "k" = ("", none) :=
  ⟨(redisStore_LSN_absent_or_empty testStore emptyRedis "k").1.2 (Or.inl (by decide)),
    (redisStore_LSN_absent_or_empty testStore redisAfterWrite "k").2.1 "100" (by decide),
    (redisStore_LSN_absent_or_empty testStore (testStore.StoreLSN emptyRedis "k" "").1
      "k").1.2 (Or.inr (by decide))⟩

/-- Claim C10. Whether `LoadBalancer.Standby` fails depends on the random start index when a
probe errors: with standbys `[nodeA, nodeB]`, stored LSN "100", the probe of `nodeA`
erroring and the probe of `nodeB` answering true, start index 0 gives the error and no
handle while start index 1 gives `nodeB` with no error. When no probe of a standby errors
(non-empty standby list, non-empty stored LSN, primary not among the standbys), the result
is the primary for one random draw exactly when it is for any other, and likewise for
being a standby. -/
theorem standby_failure_depends_on_start_index :
    (routerAB.standbys = [nodeA, nodeB] ∧
      routerAB.store.LSN redisAfterWrite "k" = ("100", none) ∧
      standbyLSNReached clusterFaultA nodeA "100" = (false, some (Error.new "timeout")) ∧
      standbyLSNReached clusterFaultA nodeB "100" = (true, none) ∧
      (routerAB.Standby redisAfterWrite clusterFaultA 0 "k").1 =
        (none, some (Error.new "timeout")) ∧
      (routerAB.Standby redisAfterWrite clusterFaultA 1 "k").1 = (some nodeB, none)) ∧
    (∀ (σ : Type) (lb : LoadBalancer σ) (st : σ) (db : DB) (key w : String) (rnd1 rnd2 : Nat),
      lb.standbys ≠ [] → lb.primary ∉ lb.standbys → lb.store.LSN st key = (w, none) →
      w ≠ "" → (∀ sb ∈ lb.standbys, (standbyLSNReached db sb w).2 = none) →
      ((lb.Standby st db rnd1 key).1 = (some lb.primary, none) ↔
        (lb.Standby st db rnd2 key).1 = (some lb.primary, none)) ∧
      ((∃ p ∈ lb.standbys, (lb.Standby st db rnd1 key).1 = (some p, none)) ↔
        (∃ p ∈ lb.standbys, (lb.Standby st db rnd2 key).1 = (some p, none)))) := by
  refine ⟨by decide, ?_⟩
  intro σ lb st db key w rnd1 rnd2 hne hprim hstore hw hnoerr
  have key1 : ∀ rnd, ((lb.Standby st db rnd key).1 = (some lb.primary, none) ↔
      ∀ sb ∈ lb.standbys, standbyLSNReached db sb w = (false, none)) := by
    intro rnd
    rcases Standby_cases lb st db rnd key w hne hstore hw with
      ⟨hall, hres⟩ | ⟨p, hp, htrue, hres⟩ | ⟨_, sb, e, hsb, _, herr, _⟩
    · exact ⟨fun _ => hall, fun _ => hres⟩
    · constructor
      · intro h
        rw [hres] at h
        simp only [Prod.mk.injEq, Option.some.injEq, and_true] at h
        exact absurd (h ▸ hp) hprim
      · intro h
        have := h p hp
        rw [htrue] at this
        simp at this
    · rw [hnoerr sb hsb] at herr
      cases herr
  have key2 : ∀ rnd, ((∃ p ∈ lb.standbys, (lb.Standby st db rnd key).1 = (some p, none)) ↔
      ¬ ∀ sb ∈ lb.standbys, standbyLSNReached db sb w = (false, none)) := by
    intro rnd
    rcases Standby_cases lb st db rnd key w hne hstore hw with
      ⟨hall, hres⟩ | ⟨p, hp, htrue, hres⟩ | ⟨_, sb, e, hsb, _, herr, _⟩
    · constructor
      · rintro ⟨p, hp, h⟩
        rw [hres] at h
        simp only [Prod.mk.injEq, Option.some.injEq, and_true] at h
        exact absurd (h ▸ hp) hprim
      · intro h
        exact absurd hall h
    · constructor
      · intro _ h
        have := h p hp
        rw [htrue] at this
        simp at this
      · intro _
        exact ⟨p, hp, hres⟩
    · rw [hnoerr sb hsb] at herr
      cases herr
  exact ⟨(key1 rnd1).trans (key1 rnd2).symm, (key2 rnd1).trans (key2 rnd2).symm⟩

theorem standby_failure_depends_on_start_index_witness :
    ((routerAB.Standby redisAfterWrite clusterA 0 "k").1 = (some nodeP, none) ↔
      (routerAB.Standby redisAfterWrite clusterA 1 "k").1 = (some nodeP, none)) :=
  (standby_failure_depends_on_start_index.2 (String → Option String) routerAB redisAfterWrite
    clusterA "k" "100" 0 1 (by decide) (by decide) (by decide) (by decide) (by decide)).1

/-- Claim C9. `LoadBalancer.Standby` on a standby list of length `n ≥ 1`, a non-empty stored
LSN `w` and a start index `s < n`. Entry `k < n` of the cyclic order is index
`(s + k) mod n` with the standby at that index. After the store lookup the calls made are
the probes of the first `m ≤ n` entries of that order, in order; the indices probed are
pairwise distinct; a probe that answers true or errors is the last probe made; and a
returned standby is entry `m - 1` of the order, its probe answered true and the probe of
every entry before it answered false: the first catch-up in cyclic order. The number `m`
of probes and the result are fixed by the answers: either all `n` entries were probed,
every probe answered false and the primary is returned; or at least one probe was made,
every probe before the last answered false, and the last probe either answered true, and
its standby is returned, or errored, and that error is returned with no handle. So
probing goes on past every false answer and stops at the first true answer or error. The
primary handle is not one of the standby handles. -/
theorem standby_probes_cyclic_first_catch_up {σ : Type} (lb : LoadBalancer σ) (st : σ)
    (db : DB) (s : Nat) (key w : String) (hs : s < lb.standbys.length)
    (hprim : lb.primary ∉ lb.standbys) (hstore : lb.store.LSN st key = (w, none))
    (hw : w ≠ "") :
    (∀ k, k < lb.standbys.length →
        ∃ sb, lb.standbys[(s + k) % lb.standbys.length]? = some sb ∧
          (cyclicOrder lb.standbys s)[k]? = some ((s + k) % lb.standbys.length, sb)) ∧
    ∃ m, m ≤ lb.standbys.length ∧
      (lb.Standby st db s key).2 =
        Event.storeLSN key :: ((cyclicOrder lb.standbys s).take m).map (probeEvent w) ∧
      (((cyclicOrder lb.standbys s).take m).map Prod.fst).Nodup ∧
      (∀ k x, ((cyclicOrder lb.standbys s).take m)[k]? = some x →
          probeOf db w x ≠ (false, none) → k + 1 = m) ∧
      (∀ p ∈ lb.standbys, (lb.Standby st db s key).1 = (some p, none) →
          ∃ j, 0 < m ∧ (cyclicOrder lb.standbys s)[m - 1]? = some (j, p) ∧
            probeOf db w (j, p) = (true, none) ∧
            ∀ x ∈ (cyclicOrder lb.standbys s).take (m - 1), probeOf db w x = (false, none)) ∧
      ((m = lb.standbys.length ∧
          (∀ x ∈ cyclicOrder lb.standbys s, probeOf db w x = (false, none)) ∧
          (lb.Standby st db s key).1 = (some lb.primary, none)) ∨
        (∃ x, 0 < m ∧ (cyclicOrder lb.standbys s)[m - 1]? = some x ∧
          (∀ y ∈ (cyclicOrder lb.standbys s).take (m - 1), probeOf db w y = (false, none)) ∧
          ((probeOf db w x = (true, none) ∧
              (lb.Standby st db s key).1 = (some x.2, none)) ∨
            (∃ e, (probeOf db w x).2 = some e ∧
              (lb.Standby st db s key).1 = (none, some e))))) := by
  have hne : lb.standbys ≠ [] := by
    intro h; rw [h] at hs; exact Nat.not_lt_zero _ hs
  have hmod : s % lb.standbys.length = s := Nat.mod_eq_of_lt hs
  have hnd : ∀ m, (((cyclicOrder lb.standbys s).take m).map Prod.fst).Nodup := by
    intro m
    rw [List.map_take]
    exact (cyclicOrder_nodup lb.standbys s).sublist (List.take_sublist _ _)
  refine ⟨fun k hk => cyclicOrder_getElem? lb.standbys s k hk, ?_⟩
  have heq := Standby_eq_probeList lb st db s key w hne hstore hw
  rw [hmod] at heq
  rw [heq]
  rcases probeList_cases lb.primary db w (cyclicOrder lb.standbys s) [Event.storeLSN key] with
    ⟨hall, hres⟩ | ⟨pre, x, post, hL, hpre, htr, hx⟩
  · refine ⟨lb.standbys.length, Nat.le_refl _, ?_, hnd _, ?_, ?_, ?_⟩
    · rw [hres, ← cyclicOrder_length lb.standbys s, List.take_length]
      rfl
    · intro k x hk hx
      exact absurd (hall x (List.mem_of_mem_take (List.getElem?_mem hk))) hx
    · intro p hp hpres
      rw [hres] at hpres
      simp only [Prod.mk.injEq, Option.some.injEq, and_true] at hpres
      exact absurd (hpres ▸ hp) hprim
    · left
      exact ⟨rfl, hall, by rw [hres]⟩
  · have hlen : pre.length + 1 ≤ lb.standbys.length := by
      rw [← cyclicOrder_length lb.standbys s, hL]
      simp
    have htake : (cyclicOrder lb.standbys s).take (pre.length + 1) = pre ++ [x] := by
      rw [hL]
      simp [List.take_append_eq_append_take]
    have htake' : (cyclicOrder lb.standbys s).take pre.length = pre := by
      rw [hL]
      simp
    have hget : (cyclicOrder lb.standbys s)[pre.length]? = some x := by
      rw [hL, List.getElem?_append_right (Nat.le_refl _), Nat.sub_self]
      exact List.getElem?_cons_zero
    refine ⟨pre.length + 1, hlen, ?_, hnd _, ?_, ?_, ?_⟩
    · rw [htr, htake]
      rfl
    · intro k y hk hy
      rw [htake] at hk
      by_cases hkl : k < pre.length
      · rw [List.getElem?_append_left hkl] at hk
        exact absurd (hpre y (List.getElem?_mem hk)) hy
      · have hk' : k < (pre ++ [x]).length := by
          by_contra hcon
          rw [List.getElem?_eq_none (Nat.le_of_not_lt hcon)] at hk
          cases hk
        simp only [List.length_append, List.length_singleton] at hk'
        omega
    · intro p _ hpres
      rcases hx with ⟨h2, h1, hres⟩ | ⟨e, _, hres⟩
      · rw [hres] at hpres
        simp only [Prod.mk.injEq, Option.some.injEq, and_true] at hpres
        refine ⟨x.1, Nat.succ_pos _, ?_, ?_, ?_⟩
        · rw [Nat.add_sub_cancel, hget, ← hpres]
        · rw [← hpres]
          exact Prod.ext h1 h2
        · rw [Nat.add_sub_cancel, htake']
          exact hpre
      · rw [hres] at hpres
        simp at hpres
    · right
      refine ⟨x, Nat.succ_pos _, ?_, ?_, ?_⟩
      · rw [Nat.add_sub_cancel]
        exact hget
      · rw [Nat.add_sub_cancel, htake']
        exact hpre
      · rcases hx with ⟨h2, h1, hres⟩ | ⟨e, h2, hres⟩
        · exact Or.inl ⟨Prod.ext h1 h2, hres⟩
        · exact Or.inr ⟨e, h2, hres⟩

theorem standby_probes_cyclic_first_catch_up_witness :
    routerAB.standbys = [nodeA, nodeB] ∧
    probeOf clusterA "100" (0, nodeA) = (false, none) ∧
    probeOf clusterA "100" (1, nodeB) = (true, none) ∧
    routerAB.Standby redisAfterWrite clusterA 0 "k" =
      ((some nodeB, none),
        [Event.storeLSN "k", Event.probe 0 nodeA "100", Event.probe 1 nodeB "100"]) := by
  refine ⟨rfl, by decide, by decide, ?_⟩
  obtain ⟨m, hm, htr, _, _, _, hcase⟩ :=
    (standby_probes_cyclic_first_catch_up routerAB redisAfterWrite clusterA 0 "k" "100"
      (by decide) (by decide) (by decide) (by decide)).2
  have hord : cyclicOrder routerAB.standbys 0 = [(0, nodeA), (1, nodeB)] := by
    simp [cyclicOrder, standbyAt, routerAB]
  rw [hord] at htr hcase
  have hm2 : m ≤ 2 := hm
  rcases hcase with ⟨_, hall, _⟩ | ⟨x, hpos, hget, _, hx⟩
  · exact absurd (hall (1, nodeB) (by simp)) (by decide)
  · have hm12 : m = 1 ∨ m = 2 := by omega
    rcases hm12 with rfl | rfl
    · simp only [Nat.sub_self, List.getElem?_cons_zero, Option.some.injEq] at hget
      subst hget
      rcases hx with ⟨h, _⟩ | ⟨e, h, _⟩
      · exact absurd h (by decide)
      · have hnone : (probeOf clusterA "100" (0, nodeA)).2 = none := by decide
        rw [hnone] at h
        cases h
    · have hx1 : x = (1, nodeB) := by
        simpa using hget.symm
      subst hx1
      rcases hx with ⟨_, hres⟩ | ⟨e, h, _⟩
      · exact Prod.ext hres (by rw [htr]; rfl)
      · have hnone : (probeOf clusterA "100" (1, nodeB)).2 = none := by decide
        rw [hnone] at h
        cases h

end Stickypg
